import Mathlib

/-!
Verification of the PyTorch platform handler
(`src/resources/platform_handlers/pytorch/model.py`) of the Triton Python
backend, against its natural-language specification.

Shallow embedding conventions:
- A torch tensor is modelled by the sequence of its axis-0 slices
  (`Tensor α := List α`): `torch.cat(_, 0)` is list append, `t.size()[0]`
  is list length, `torch.split(t, sections)` cuts the list into chunks of
  the given lengths and raises when the section lengths do not sum to the
  axis-0 length.  Whatever lives below axis 0 is the opaque slice type `α`;
  tensors of one input slot share `α`, which models the concatenation
  precondition "same shape except axis 0".
- Python exceptions (`IndexError` on subscripting, the torch errors, the
  `TritonModelException`s) are modelled by `Option`: `none` means the Python
  call raised and the surrounding call aborted with no result.
- Device placement (`Tensor.to(device)`, `detach()`) never changes the
  element sequence of a tensor, so both are value-level identities that keep
  their arguments explicit.
- The filesystem consulted by `_get_model_path` is a predicate
  `String → Bool`; the names exported by a dynamically loaded module are a
  list of (name, attribute) pairs; the JSON text of
  `TORCH_COMPILE_OPTIONAL_PARAMETERS` is given already parsed, as an
  association list.
-/

namespace PytorchModel

/-- A torch tensor, modelled as the list of its axis-0 slices. -/
abbrev Tensor (α : Type) := List α

/-- Model of `torch.cat((t, u), 0)`: concatenation along axis 0. -/
def torch_cat {α : Type} (t u : Tensor α) : Tensor α := t ++ u

/-- Successive chunks of `t` with the given lengths, the cutting step of
`torch.split`. -/
def torch_split_chunks {α : Type} : Tensor α → List Nat → List (Tensor α)
  | _, [] => []
  | t, s :: ss => t.take s :: torch_split_chunks (t.drop s) ss

/-- Model of `torch.split(t, sections)` with a list of section sizes:
`split_with_sizes` raises unless the sizes sum exactly to the axis-0
length. -/
def torch_split {α : Type} (t : Tensor α) (sections : List Nat) :
    Option (List (Tensor α)) :=
  if List.sum sections = t.length then some (torch_split_chunks t sections)
  else none

/-- Model of `_torch_object_to_device`: `.to(device)` moves storage but never
changes the element sequence, so on tensor values it is the identity on both
branches of the source's `if device != None`. -/
def torch_object_to_device {α : Type} (obj : Tensor α) (device : Option String) :
    Tensor α :=
  match device with
  | some _ => obj
  | none => obj

/-- Model of `Tensor.detach()`: drops autograd tracking, keeps the value. -/
def tensor_detach {α : Type} (t : Tensor α) : Tensor α := t

/-- One iteration of the inner loop of `_batch_torch_tensors` over the input
slot `j`.  On the `j < len(batch_tensors)` branch the source computes
`torch.cat((tensor, request_tensor), 0)` but never reassigns the result, so
`batch_tensors` is left unchanged there; on the other branch the request's
tensor starts a new slot. -/
def batch_inner_step {α : Type} (request_tensors : List (Tensor α))
    (batch_tensors : List (Tensor α)) (j : Nat) : List (Tensor α) :=
  if j < batch_tensors.length then
    let _dropped := torch_cat (batch_tensors.getD j []) (request_tensors.getD j [])
    batch_tensors
  else
    batch_tensors ++ [request_tensors.getD j []]

/-- Model of `_batch_torch_tensors`.  The outer loop runs over the requests,
the inner loop over the slots of one request; after the inner loop the
request's section length is read from `request_tensors[0].size()[0]`, which
raises `IndexError` (`none`) on a request with no tensors. -/
def batch_torch_tensors {α : Type} (requests_tensors : List (List (Tensor α))) :
    Option (List (List (Tensor α)) × List Nat) := do
  let result ← requests_tensors.foldlM
    (fun (acc : List (Tensor α) × List Nat) request_tensors => do
      let batch_tensors := (List.range request_tensors.length).foldl
        (batch_inner_step request_tensors) acc.1
      let first ← request_tensors.head?
      let section_length := first.length
      pure (batch_tensors, acc.2 ++ [section_length]))
    (([], []) : List (Tensor α) × List Nat)
  pure ([result.1], result.2)

/-- One iteration of the inner loop of `_unbatch_torch_tensors` over the
request index `i`: when `i >= len(responses_tensors)` a fresh empty response
is appended, then piece `i` of the current slot is appended to response
`i`. -/
def unbatch_inner_step {α : Type} (responses_tensor : List (Tensor α))
    (responses_tensors : List (List (Tensor α))) (i : Nat) :
    List (List (Tensor α)) :=
  let acc := if responses_tensors.length ≤ i then responses_tensors ++ [[]]
    else responses_tensors
  acc.set i (acc.getD i [] ++ [responses_tensor.getD i []])

/-- The inner loop of `_unbatch_torch_tensors` for one output slot: distribute
the slot's split pieces over the per-request responses. -/
def unbatch_add_slot {α : Type} (responses_tensors : List (List (Tensor α)))
    (responses_tensor : List (Tensor α)) : List (List (Tensor α)) :=
  (List.range responses_tensor.length).foldl
    (unbatch_inner_step responses_tensor) responses_tensors

/-- Model of `_unbatch_torch_tensors`: split every output slot's batched
tensor by `sections` and regroup the pieces per request. -/
def unbatch_torch_tensors {α : Type} (response_tensors : List (Tensor α))
    (sections : List Nat) : Option (List (List (Tensor α))) :=
  response_tensors.foldlM
    (fun responses_tensors response_tensor => do
      let responses_tensor ← torch_split response_tensor sections
      pure (unbatch_add_slot responses_tensors responses_tensor))
    []

/-- Model of `os.path.join(dir, filename)` for a relative filename under a
directory without a trailing separator. -/
def path_join (dir filename : String) : String := dir ++ "/" ++ filename

/-- The candidate filename list built at the top of `_get_model_path`: the
fixed conventional names, with the configured `default_model_filename`
inserted at position 0 when it is truthy (a non-empty string). -/
def get_model_path_filenames (default_model_filename : String) : List String :=
  let filenames := ["model.py", "model.pt", "model.pth"]
  if default_model_filename = "" then filenames
  else default_model_filename :: filenames

/-- Model of `_get_model_path`: return the first candidate path that exists
under the model directory; `none` models the `TritonModelException`
("No model found") raised when no candidate exists.  The filesystem is the
predicate `path_exists`. -/
def get_model_path (model_dir default_model_filename : String)
    (path_exists : String → Bool) : Option String :=
  (get_model_path_filenames default_model_filename).findSome? fun filename =>
    let model_path := path_join model_dir filename
    if path_exists model_path then some model_path else none

/-- The fragment of `TritonPythonModel.initialize` that runs from the
`_get_model_path` call on: every assignment of a model handle comes after
that call, so a `ModelNotFound` exception aborts the load with no handle
created.  Loading itself (`torch.jit.load` or class instantiation) is the
opaque `load`. -/
def locate_then_load {H : Type} (model_dir default_model_filename : String)
    (path_exists : String → Bool) (load : String → H) : Option H := do
  let model_path ← get_model_path model_dir default_model_filename path_exists
  pure (load model_path)

/-- Model of `_get_device_name`: kind "GPU" maps to "cuda:" plus the ordinal,
"CPU" maps to "cpu", anything else to the empty string. -/
def get_device_name (model_instance_kind model_instance_device_id : String) :
    String :=
  if model_instance_kind = "GPU" then "cuda:" ++ model_instance_device_id
  else if model_instance_kind = "CPU" then "cpu"
  else ""

/-- Model of `_get_device`: a `torch.device` is represented by its name
string; `none` models the source's `None` ("leave torch objects at its
default device"). -/
def get_device (model_instance_kind model_instance_device_id : String) :
    Option String :=
  let device_name := get_device_name model_instance_kind model_instance_device_id
  if device_name ≠ "" then some device_name else none

/-- Model of `_get_torch_compile_params`.  The JSON front end is opaque: the
`TORCH_COMPILE_OPTIONAL_PARAMETERS` entry is given already parsed, as an
optional association list (`none` = the parameter is absent from
`config["parameters"]`).  `none` as the result models the
`TritonModelException` raised for the reserved key "model". -/
def get_torch_compile_params {V : Type} (parameter : Option (List (String × V))) :
    Option (List (String × V)) :=
  match parameter with
  | none => some []
  | some params =>
    if params.any (fun kv => kv.1 == "model") then none
    else some params

/-- A Python attribute as seen by the subclass scan of
`_get_model_class_from_module`: either a class, carrying whether
`issubclass(attr, torch.nn.Module)` holds, or a non-class value, on which
`issubclass` raises `TypeError`. -/
inductive PyAttr where
  | cls (is_nn_module : Bool)
  | noncls
deriving DecidableEq

/-- Model of `issubclass(attr, torch.nn.Module)`: `none` is the `TypeError`
raised when `attr` is not a class. -/
def issubclass_nn_module : PyAttr → Option Bool
  | PyAttr.cls b => some b
  | PyAttr.noncls => none

/-- Model of `_get_model_class_from_module`: scan `dir(module)` in order and
return the first attribute whose subclass check returns true; a check that
returns false, or raises `TypeError`, skips the name.  `none` models the
`TritonModelException` ("Cannot find a subclass of torch.nn.Module"). -/
def get_model_class_from_module (names : List (String × PyAttr)) : Option PyAttr :=
  names.findSome? fun na =>
    match issubclass_nn_module na.2 with
    | some true => some na.2
    | some false => none
    | none => none

/-- Model of `TritonPythonModel.execute`.  An inbound request is the map from
input names to its tensors; `inputs`/`outputs` are the configured descriptor
names (`_parse_io_config` keeps exactly the names, in order).  `batcher` and
`unbatcher` stand for `self._batcher`/`self._unbatcher` (assigned only when
batching is supported); the intended instantiation is
`batch_torch_tensors`/`unbatch_torch_tensors`, whose `torch.compile` wrapper
preserves semantics.  The model call is the opaque `model`, already
normalized to return a list of output tensors.  `none` models an exception
escaping `execute`, which aborts the whole call with no responses. -/
def execute {α : Type} (support_batching : Bool)
    (batcher : List (List (Tensor α)) → Option (List (List (Tensor α)) × List Nat))
    (unbatcher : List (Tensor α) → List Nat → Option (List (List (Tensor α))))
    (device : Option String) (inputs outputs : List String)
    (model : List (Tensor α) → List (Tensor α))
    (requests : List (String → Tensor α)) :
    Option (List (List (String × Tensor α))) := do
  let requests_tensors := requests.map fun request =>
    inputs.map fun name => torch_object_to_device (request name) device
  let (calls, sections) ←
    if support_batching then batcher requests_tensors
    else some (requests_tensors, [])
  let responses_tensors := calls.map fun input_tensors => model input_tensors
  let responses_tensors ←
    if support_batching then do
      let first ← responses_tensors.head?
      unbatcher first sections
    else some responses_tensors
  responses_tensors.mapM fun response_tensors =>
    (List.range outputs.length).mapM fun i => do
      let tensor ← response_tensors[i]?
      pure (outputs.getD i "", tensor_detach tensor)

lemma batch_inner_fold_take {α : Type} (rt : List (Tensor α)) :
    ∀ n, n ≤ rt.length →
      (List.range n).foldl (batch_inner_step rt) [] = rt.take n := by
  intro n
  induction n with
  | zero => intro _; simp
  | succ k ih =>
    intro hn
    rw [List.range_succ, List.foldl_append, ih (Nat.le_of_succ_le hn)]
    simp only [List.foldl_cons, List.foldl_nil]
    unfold batch_inner_step
    have hk : k < rt.length := hn
    have hlen : (rt.take k).length = k := by rw [List.length_take]; omega
    rw [hlen, if_neg (lt_irrefl k), List.take_succ, List.getElem?_eq_getElem hk]
    simp [List.getD_eq_getElem?_getD, List.getElem?_eq_getElem hk]

lemma batch_inner_fold_all {α : Type} (rt : List (Tensor α)) :
    (List.range rt.length).foldl (batch_inner_step rt) [] = rt := by
  rw [batch_inner_fold_take rt rt.length (le_refl _), List.take_length]

lemma batch_torch_tensors_single {α : Type} (rt : List (Tensor α)) (t0 : Tensor α)
    (h0 : rt.head? = some t0) :
    batch_torch_tensors [rt] = some ([rt], [t0.length]) := by
  unfold batch_torch_tensors
  rw [List.foldlM_cons]
  simp [batch_inner_fold_all, h0]

lemma torch_split_single {α : Type} (t : Tensor α) (n : Nat) (h : t.length = n) :
    torch_split t [n] = some [t] := by
  subst h
  unfold torch_split torch_split_chunks torch_split_chunks
  simp [List.take_length]

lemma unbatch_add_slot_single {α : Type} (l : List (Tensor α)) (t : Tensor α) :
    unbatch_add_slot [l] [t] = [l ++ [t]] := by
  simp [unbatch_add_slot, unbatch_inner_step, List.range_succ, List.set_cons_zero]

lemma unbatch_add_slot_empty {α : Type} (t : Tensor α) :
    unbatch_add_slot [] [t] = [[t]] := by
  simp [unbatch_add_slot, unbatch_inner_step, List.range_succ, List.set_cons_zero]

lemma unbatch_fold_single {α : Type} (n : Nat) :
    ∀ (ts : List (Tensor α)), (∀ t ∈ ts, t.length = n) →
      ∀ (l : List (Tensor α)),
      ts.foldlM
        (fun responses_tensors response_tensor =>
          (torch_split response_tensor [n]).bind
            fun p => some (unbatch_add_slot responses_tensors p))
        [l] = some [l ++ ts] := by
  intro ts
  induction ts with
  | nil => intro _ l; simp
  | cons t ts ih =>
    intro h l
    rw [List.foldlM_cons, torch_split_single t n (h t (by simp))]
    simp only [Option.bind_some, Option.some_bind, pure, bind]
    rw [unbatch_add_slot_single,
      ih (fun u hu => h u (by simp [hu])) (l ++ [t])]
    simp

lemma get_model_path_eq_find? (dir d : String) (ex : String → Bool) :
    get_model_path dir d ex =
      ((get_model_path_filenames d).map (path_join dir)).find? ex := by
  unfold get_model_path
  induction get_model_path_filenames d with
  | nil => rfl
  | cons f fs ih =>
    rw [List.map_cons, List.findSome?_cons]
    cases hf : ex (path_join dir f) with
    | true => simp [List.find?, hf]
    | false => simp [List.find?, hf, ih]

lemma option_mapM_getElem? {β γ : Type} (f : β → Option γ) :
    ∀ (l : List β) (res : List γ), l.mapM f = some res →
      ∀ (j : Nat), res[j]? = (l[j]?).bind f := by
  intro l
  induction l with
  | nil =>
    intro res h j
    rw [List.mapM_nil] at h
    have : res = [] := by simpa using h.symm
    subst this
    simp
  | cons a l ih =>
    intro res h j
    rw [List.mapM_cons] at h
    cases hfa : f a with
    | none =>
      rw [hfa] at h
      simp at h
    | some b =>
      rw [hfa] at h
      cases hml : l.mapM f with
      | none =>
        rw [hml] at h
        simp at h
      | some bs =>
        rw [hml] at h
        have hres : res = b :: bs := by simpa using h.symm
        subst hres
        cases j with
        | zero => simp [hfa]
        | succ k =>
          simpa using ih bs hml k

/-- Claim C1.  The claimed batch/unbatch round trip fails on the code: with
two requests of one tensor each (axis-0 length 1, shapes agreeing except
axis 0) and the identity model per slot, `_batch_torch_tensors` returns a
merged slot tensor that is just the first request's tensor (line 160 drops
the `torch.cat` result) together with sections `[1, 1]`, and
`_unbatch_torch_tensors` then raises inside `torch.split` instead of
reconstructing the original per-request tensors. -/
theorem batch_unbatch_roundtrip_bug :
    batch_torch_tensors [[[0]], [[1]]] = some ([[[(0 : Nat)]]], [1, 1]) ∧
    unbatch_torch_tensors [[(0 : Nat)]] [1, 1] = none := by decide

/-- Claim C2.  The claimed invariant "sum of sections = axis-0 length of the
merged batched tensor" fails on the code: for three one-example requests,
`_batch_torch_tensors` records sections `[1, 1, 1]` (sum 3) while the merged
slot tensor is the first request's tensor, of axis-0 length 1. -/
theorem batch_sections_sum_bug :
    batch_torch_tensors [[[5]], [[6]], [[7]]] = some ([[[(5 : Nat)]]], [1, 1, 1]) ∧
    List.sum [1, 1, 1] ≠ List.length [(5 : Nat)] := by decide

/-- Claim C3.  Order-and-length preservation of `execute` fails on the code
when batching is enabled: with two one-example requests and the identity
model, `execute` aborts inside `_unbatch_torch_tensors` (the `torch.split`
raised by the batching bug) and returns no responses instead of two; with
batching disabled the same two requests do get one response each, in request
order. -/
theorem execute_batched_two_requests_bug :
    execute true batch_torch_tensors unbatch_torch_tensors none
      ["IN0"] ["OUT0"] (fun ts => ts)
      [fun _ => [(0 : Nat)], fun _ => [(1 : Nat)]] = none ∧
    execute false batch_torch_tensors unbatch_torch_tensors none
      ["IN0"] ["OUT0"] (fun ts => ts)
      [fun _ => [(0 : Nat)], fun _ => [(1 : Nat)]]
      = some [[("OUT0", [0])], [("OUT0", [1])]] := by
  constructor
  · rfl
  · rfl

/-- Claim C4.  With batching disabled, `execute` never invokes the batcher or
the unbatcher (its result is the same for arbitrary `batcher`/`unbatcher`
arguments), and there is no cross-request leakage: in two successful runs
whose request lists agree everywhere except at index `i`, the responses at
every index `j ≠ i` are identical. -/
theorem execute_nobatch_noninterference {α : Type}
    (batcher1 batcher2 :
      List (List (Tensor α)) → Option (List (List (Tensor α)) × List Nat))
    (unbatcher1 unbatcher2 :
      List (Tensor α) → List Nat → Option (List (List (Tensor α))))
    (device : Option String) (inputs outputs : List String)
    (model : List (Tensor α) → List (Tensor α))
    (requests requests' : List (String → Tensor α)) (i : Nat)
    (responses responses' : List (List (String × Tensor α)))
    (hagree : ∀ j, j ≠ i → requests[j]? = requests'[j]?)
    (hr : execute false batcher1 unbatcher1 device inputs outputs model requests
      = some responses)
    (hr' : execute false batcher1 unbatcher1 device inputs outputs model requests'
      = some responses') :
    execute false batcher1 unbatcher1 device inputs outputs model requests =
      execute false batcher2 unbatcher2 device inputs outputs model requests ∧
    ∀ j, j ≠ i → responses[j]? = responses'[j]? := by
  constructor
  · rfl
  · intro j hj
    have h1 : ((requests.map fun request => inputs.map fun name =>
          torch_object_to_device (request name) device).map
            fun input_tensors => model input_tensors).mapM
          (fun response_tensors => (List.range outputs.length).mapM fun k => do
            let tensor ← response_tensors[k]?
            pure (outputs.getD k "", tensor_detach tensor))
        = some responses := hr
    have h2 : ((requests'.map fun request => inputs.map fun name =>
          torch_object_to_device (request name) device).map
            fun input_tensors => model input_tensors).mapM
          (fun response_tensors => (List.range outputs.length).mapM fun k => do
            let tensor ← response_tensors[k]?
            pure (outputs.getD k "", tensor_detach tensor))
        = some responses' := hr'
    have g1 := option_mapM_getElem? _ _ _ h1 j
    have g2 := option_mapM_getElem? _ _ _ h2 j
    rw [List.getElem?_map, List.getElem?_map] at g1 g2
    rw [g1, g2, hagree j hj]

/-- Witness for C4: two 2-request runs differing only in request 0 (inputs
`[0]` versus `[7]`), identity model; the response at index 1 is identical,
and the disabled path ignores the batcher/unbatcher entirely. -/
theorem execute_nobatch_noninterference_witness :
    execute false batch_torch_tensors unbatch_torch_tensors none ["IN0"] ["OUT0"]
        (fun ts => ts) [fun _ => [(0 : Nat)], fun _ => [1]] =
      execute false (fun _ => none) (fun _ _ => none) none ["IN0"] ["OUT0"]
        (fun ts => ts) [fun _ => [(0 : Nat)], fun _ => [1]] ∧
    [[("OUT0", [(0 : Nat)])], [("OUT0", [1])]][1]? =
      [[("OUT0", [(7 : Nat)])], [("OUT0", [1])]][1]? := by
  have h := execute_nobatch_noninterference batch_torch_tensors (fun _ => none)
    unbatch_torch_tensors (fun _ _ => none) none ["IN0"] ["OUT0"] (fun ts => ts)
    [fun _ => [(0 : Nat)], fun _ => [1]] [fun _ => [(7 : Nat)], fun _ => [1]] 0
    [[("OUT0", [0])], [("OUT0", [1])]] [[("OUT0", [7])], [("OUT0", [1])]]
    (by
      intro j hj
      cases j with
      | zero => exact absurd rfl hj
      | succ k =>
        cases k with
        | zero => rfl
        | succ n => rfl)
    rfl rfl
  exact ⟨h.1, h.2 1 (by decide)⟩

/-- Claim C5.  `_get_model_path` tries the configured default filename first
(when non-empty), then `model.py`, `model.pt`, `model.pth`, and returns the
first existing path under the model directory; in particular, when the
configured-name file exists it is returned even if `model.py` also
exists. -/
theorem locate_model_order (dir d : String) (ex : String → Bool) (hd : d ≠ "") :
    get_model_path dir d ex =
      [path_join dir d, path_join dir "model.py", path_join dir "model.pt",
        path_join dir "model.pth"].find? ex ∧
    (ex (path_join dir d) = true →
      get_model_path dir d ex = some (path_join dir d)) := by
  have hfn : get_model_path_filenames d = [d, "model.py", "model.pt", "model.pth"] := by
    unfold get_model_path_filenames
    simp [hd]
  constructor
  · rw [get_model_path_eq_find?, hfn]
    rfl
  · intro hex
    rw [get_model_path_eq_find?, hfn]
    simp [List.find?, hex]

/-- Witness for C5: a directory holding both the configured `custom.pt` and
`model.py`; the configured path wins. -/
theorem locate_model_order_witness :
    get_model_path "/repo/m/1" "custom.pt"
      (fun p => p == "/repo/m/1/custom.pt" || p == "/repo/m/1/model.py")
      = some "/repo/m/1/custom.pt" :=
  (locate_model_order "/repo/m/1" "custom.pt"
    (fun p => p == "/repo/m/1/custom.pt" || p == "/repo/m/1/model.py")
    (by decide)).2 (by decide)

/-- Claim C6.  `_get_model_path` raises `ModelNotFound` exactly when none of
the candidate paths exists, and in that case the load aborts with no model
handle created (`locate_then_load` produces nothing). -/
theorem locate_model_none_iff {H : Type} (dir d : String) (ex : String → Bool)
    (load : String → H) :
    (get_model_path dir d ex = none ↔
      ∀ f ∈ get_model_path_filenames d, ex (path_join dir f) = false) ∧
    (get_model_path dir d ex = none →
      locate_then_load dir d ex load = none) := by
  constructor
  · rw [get_model_path_eq_find?, List.find?_eq_none]
    constructor
    · intro h f hf
      have := h (path_join dir f) (List.mem_map_of_mem _ hf)
      simpa using this
    · intro h p hp
      obtain ⟨f, hf, rfl⟩ := List.mem_map.1 hp
      simp [h f hf]
  · intro h
    unfold locate_then_load
    rw [h]
    rfl

/-- Claim C7.  Device resolution is a pure function of the two strings: kind
"GPU" with ordinal `d` yields `cuda:<d>`, kind "CPU" yields `cpu` whatever
the ordinal, and any other kind yields no device (torch objects stay where
they were created). -/
theorem resolve_device_spec (kind ordinal : String)
    (h1 : kind ≠ "GPU") (h2 : kind ≠ "CPU") :
    get_device "GPU" ordinal = some ("cuda:" ++ ordinal) ∧
    get_device "CPU" ordinal = some "cpu" ∧
    get_device kind ordinal = none := by
  refine ⟨?_, ?_, ?_⟩
  · unfold get_device get_device_name
    have hne : ("cuda:" ++ ordinal) ≠ "" := by
      intro h
      have hlen := congrArg String.length h
      rw [String.length_append] at hlen
      have h5 : String.length "cuda:" = 5 := rfl
      have h0 : String.length "" = 0 := rfl
      omega
    simp [hne]
  · unfold get_device get_device_name
    simp
  · unfold get_device get_device_name
    simp [h1, h2]

/-- Witness for C7 at kind "UNKNOWN" and ordinal "0". -/
theorem resolve_device_spec_witness :
    get_device "GPU" "0" = some ("cuda:" ++ "0") ∧
    get_device "CPU" "0" = some "cpu" ∧
    get_device "UNKNOWN" "0" = none :=
  resolve_device_spec "UNKNOWN" "0" (by decide) (by decide)

/-- Claim C8.  Compiler-parameter extraction returns the empty mapping when
the parameter is absent, fails with `InvalidCompileParameter` exactly when
the parsed mapping contains the reserved key "model", and returns any other
mapping unchanged. -/
theorem compile_params_spec {V : Type} (m : List (String × V))
    (hm : "model" ∉ m.map Prod.fst) :
    get_torch_compile_params (none : Option (List (String × V))) = some [] ∧
    (∀ m' : List (String × V),
      (get_torch_compile_params (some m') = none ↔ "model" ∈ m'.map Prod.fst)) ∧
    get_torch_compile_params (some m) = some m := by
  have key : ∀ m' : List (String × V),
      (m'.any (fun kv => kv.1 == "model")) = true ↔ "model" ∈ m'.map Prod.fst := by
    intro m'
    rw [List.any_eq_true]
    constructor
    · rintro ⟨kv, hkv, hb⟩
      have : kv.1 = "model" := by simpa using hb
      exact this ▸ List.mem_map_of_mem _ hkv
    · intro h
      obtain ⟨kv, hkv, hk⟩ := List.mem_map.1 h
      exact ⟨kv, hkv, by simp [hk]⟩
  refine ⟨rfl, ?_, ?_⟩
  · intro m'
    unfold get_torch_compile_params
    cases ha : m'.any (fun kv => kv.1 == "model") with
    | true => simp [ha, (key m').1 ha]
    | false =>
      simp only [ha]
      simp only [Bool.false_eq_true, if_false]
      constructor
      · intro h
        exact absurd h (by simp)
      · intro h
        exact absurd ((key m').2 h) (by simp [ha])
  · unfold get_torch_compile_params
    have : (m.any (fun kv => kv.1 == "model")) = false := by
      cases ha : m.any (fun kv => kv.1 == "model") with
      | true => exact absurd ((key m).1 ha) hm
      | false => rfl
    simp [this]

/-- Witness for C8: the mapping parsed from a JSON text like
`{"fullgraph": true}` passes through unchanged. -/
theorem compile_params_spec_witness :
    get_torch_compile_params (some [("fullgraph", true)])
      = some [("fullgraph", true)] :=
  (compile_params_spec [("fullgraph", true)] (by decide)).2.2

/-- Claim C9.  The subclass scan raises `NoModelClassFound` exactly when no
exported name of the module is a class deriving from `torch.nn.Module`
(names that are not classes, on which `issubclass` raises `TypeError`, and
classes failing the check are skipped, not fatal), and whenever it returns
an attribute that attribute is a qualifying class. -/
theorem model_class_scan_spec (names : List (String × PyAttr)) :
    (get_model_class_from_module names = none ↔
      ∀ p ∈ names, p.2 ≠ PyAttr.cls true) ∧
    (∀ a, get_model_class_from_module names = some a → a = PyAttr.cls true) := by
  induction names with
  | nil => simp [get_model_class_from_module]
  | cons p ps ih =>
    unfold get_model_class_from_module at ih ⊢
    simp only [issubclass_nn_module] at ih ⊢
    rw [List.findSome?_cons]
    cases hp : p.2 with
    | cls b =>
      cases b with
      | true =>
        constructor
        · constructor
          · intro h
            exact Option.noConfusion h
          · intro h
            exact absurd hp (h p (List.mem_cons_self p ps))
        · intro a ha
          exact (Option.some.inj ha).symm
      | false =>
        constructor
        · constructor
          · intro h q hq
            rcases List.mem_cons.1 hq with hq | hq
            · rw [hq, hp]
              simp
            · exact ih.1.mp h q hq
          · intro h
            exact ih.1.mpr fun q hq => h q (List.mem_cons_of_mem _ hq)
        · intro a ha
          exact ih.2 a ha
    | noncls =>
      constructor
      · constructor
        · intro h q hq
          rcases List.mem_cons.1 hq with hq | hq
          · rw [hq, hp]
            simp
          · exact ih.1.mp h q hq
        · intro h
          exact ih.1.mpr fun q hq => h q (List.mem_cons_of_mem _ hq)
      · intro a ha
        exact ih.2 a ha

/-- Claim C10.  For a single-request call with a non-empty tensor set whose
tensors share the axis-0 length, `_batch_torch_tensors` returns the
request's tensor list unchanged as the one merged set with sections equal to
`[axis-0 length of slot 0]`, and unbatching the (identity-model) outputs
with those sections reconstructs the request exactly. -/
theorem batch_unbatch_single_request {α : Type} (rt : List (Tensor α))
    (t0 : Tensor α) (h0 : rt.head? = some t0)
    (hall : ∀ t ∈ rt, t.length = t0.length) :
    batch_torch_tensors [rt] = some ([rt], [t0.length]) ∧
    unbatch_torch_tensors rt [t0.length] = some [rt] := by
  refine ⟨batch_torch_tensors_single rt t0 h0, ?_⟩
  cases rt with
  | nil => simp at h0
  | cons a as =>
    have ha : a = t0 := by simpa using h0
    subst ha
    unfold unbatch_torch_tensors
    rw [List.foldlM_cons, torch_split_single a a.length rfl]
    simp only [Option.bind_some, Option.some_bind, pure, bind]
    rw [unbatch_add_slot_empty,
      unbatch_fold_single a.length as (fun u hu => hall u (by simp [hu])) [a]]
    simp

/-- Witness for C10: one request with two input slots of axis-0 length 2. -/
theorem batch_unbatch_single_request_witness :
    batch_torch_tensors [[[1, 2], [3, 4]]] = some ([[[(1 : Nat), 2], [3, 4]]], [2]) ∧
    unbatch_torch_tensors [[(1 : Nat), 2], [3, 4]] [2] = some [[[1, 2], [3, 4]]] :=
  batch_unbatch_single_request [[1, 2], [3, 4]] [1, 2] (by decide) (by decide)

end PytorchModel
